import Mathlib

/-!
Verification of the SQL migration safety analyser.

The development shallowly embeds the analyser's core: the sqlglot-style
syntax tree consumed by the detectors, the WHERE-clause danger detector
(`migration_analyser/tasks/context_where.py`), the drop-operation detector
(`migration_analyser/tasks/check_drop.py`), the per-statement aggregation
classes, the convenience query-checking boundary, and the batch
orchestrator (`migration_analyser/engine.py`).

Modelling decisions, fixed once for the whole file:

* A sqlglot expression node is `SNode`: a Python class tag (`Kind`), the
  node's `.name` attribute (the text of identifier-like nodes such as
  `Var`; empty when irrelevant), and its ordered `args` mapping.  An arg
  value is `Arg.null` (the Python value `None`), `Arg.scalar` (any value
  that is neither `None`, a list, nor an expression node — the traversals
  skip such values and never read attributes from them), `Arg.node`, or
  `Arg.list`.  List elements that are not expression nodes are again
  skipped by every traversal, so `Items` holds arbitrary `Arg` values and
  the walkers only descend into `.node` elements, exactly as the Python
  `isinstance(item, exp.Expression)` guards do.
* Python dict lookup `args.get(k)` and the pair `k in args` /
  `args[k] is not None` are both modelled by `Args.get`, which returns
  `none` when the key is absent and `some Arg.null` when the key is
  present with value `None`.
* Detection dicts become the `Detection` structure.  The drop detector's
  dicts carry no `has_where` key; that absence and an explicit `None` are
  both modelled as `none`.
* Printing is side effect only and is dropped.  Raising an exception is
  modelled with `Except`.  The external parser boundary is modelled by
  `ParseOutcome`: either the list sqlglot.parse returned (possibly with
  `None` entries, which the Python code skips) or the message of the
  exception it raised.
* `engine.analyse_file` also invokes an example task whose module is not
  part of the analysed sources; per the specification's orchestrator
  contract the file summary is computed from the WHERE-family results
  alone, so that side call (whose result is only printed) is omitted.
-/

set_option linter.unusedVariables false

/-- Kind of a syntax-tree node: the sqlglot expression class of the node.
The classes the analyser discriminates on get their own constructors; every
other class is `other` carrying the Python class name. -/
inductive Kind where
  | update | delete | select | insert | merge | create | drop | alter
  | other (className : String)
  deriving DecidableEq, Repr

mutual
/-- Syntax-tree node: class tag, `.name` attribute, ordered `args` dict. -/
inductive SNode : Type where
  | mk (kind : Kind) (nodeName : String) (args : Args) : SNode
  deriving DecidableEq, Repr
/-- Ordered field-name/value entries of a node's `args` dict. -/
inductive Args : Type where
  | nil : Args
  | cons (field : String) (v : Arg) (rest : Args) : Args
  deriving DecidableEq, Repr
/-- Value stored under one key of an `args` dict. -/
inductive Arg : Type where
  | null : Arg
  | scalar : Arg
  | node (n : SNode) : Arg
  | list (xs : Items) : Arg
  deriving DecidableEq, Repr
/-- Elements of a list-valued arg; non-`node` elements are skipped by every
traversal. -/
inductive Items : Type where
  | nil : Items
  | cons (v : Arg) (rest : Items) : Items
  deriving DecidableEq, Repr
end

def SNode.kind : SNode → Kind
  | .mk k _ _ => k

/-- Python `.name` attribute of an expression node. -/
def SNode.name : SNode → String
  | .mk _ nm _ => nm

def SNode.args : SNode → Args
  | .mk _ _ a => a

/-- Dict lookup `args.get(k)`: `none` when the key is absent. -/
def Args.get : Args → String → Option Arg
  | .nil, _ => none
  | .cons f v rest, k => if f = k then some v else Args.get rest k

/-- Python `str.upper()` on the ASCII identifiers the detectors compare;
written via `List.map` so that the kernel can evaluate it. -/
def pyUpper (s : String) : String := String.mk (s.data.map Char.toUpper)

/-- One detection dict produced by either detector. -/
structure Detection where
  is_dangerous : Bool
  statement_type : Option String
  has_where : Option Bool
  message : String
  node : Option SNode
  deriving DecidableEq, Repr

/-- Outcome of the external `sqlglot.parse` call at the convenience
boundary: the statement list it returned (entries can be `None`), or the
message of the exception it raised. -/
inductive ParseOutcome where
  | ok (stmts : List (Option SNode))
  | error (msg : String)
  deriving Repr

namespace ContextWhere

/-- Commands that are dangerous without WHERE clause
(`DANGEROUS_COMMANDS = {exp.Update, exp.Delete}`). -/
def DANGEROUS_COMMANDS : List Kind := [Kind.update, Kind.delete]

/-- Translation of `has_where_clause`: the node's `where` arg is present
and not `None`. -/
def has_where_clause (n : SNode) : Bool :=
  match n.args.get "where" with
  | some Arg.null => false
  | some _ => true
  | none => false

/-- Translation of `get_statement_type`: canonical label for the known
statement classes, otherwise the node's class name uppercased. -/
def get_statement_type (n : SNode) : String :=
  match n.kind with
  | Kind.update => "UPDATE"
  | Kind.delete => "DELETE"
  | Kind.select => "SELECT"
  | Kind.insert => "INSERT"
  | Kind.merge => "MERGE"
  | Kind.create => "CREATE"
  | Kind.drop => "DROP"
  | Kind.alter => "ALTER"
  | Kind.other c => pyUpper c

/-- The block of `check_ast_for_dangerous_commands` that examines the
current node: one result dict when the node is an UPDATE/DELETE, nothing
otherwise. -/
def whereNodeCheck (n : SNode) : List Detection :=
  if n.kind ∈ DANGEROUS_COMMANDS then
    let statement_type := get_statement_type n
    let has_where := has_where_clause n
    let is_dangerous := !has_where
    [{ is_dangerous := is_dangerous,
       statement_type := some statement_type,
       has_where := some has_where,
       message :=
         if is_dangerous then
           "Dangerous " ++ statement_type ++ " statement without WHERE clause detected!"
         else
           statement_type ++ " statement has WHERE clause - OK",
       node := some n }]
  else []

mutual
/-- Translation of `check_ast_for_dangerous_commands`: check the current
node, then recurse through the arg values front to back, descending into
expression values and into expression elements of list values. -/
def check_ast_for_dangerous_commands : SNode → List Detection
  | .mk k nm a =>
      whereNodeCheck (SNode.mk k nm a) ++ whereWalkArgs a
def whereWalkArgs : Args → List Detection
  | .nil => []
  | .cons _ v rest => whereWalkArg v ++ whereWalkArgs rest
def whereWalkArg : Arg → List Detection
  | .null => []
  | .scalar => []
  | .node n => check_ast_for_dangerous_commands n
  | .list xs => whereWalkItems xs
def whereWalkItems : Items → List Detection
  | .nil => []
  | .cons v rest => whereWalkItem v ++ whereWalkItems rest
def whereWalkItem : Arg → List Detection
  | .node n => check_ast_for_dangerous_commands n
  | _ => []
end

/-- The safe placeholder result `check_dangerous_query` and `run_task`
synthesize when a statement produced no detection. -/
def safePlaceholder (statement : SNode) : Detection :=
  { is_dangerous := false,
    statement_type := some (get_statement_type statement),
    has_where := none,
    message := get_statement_type statement ++ " statement is safe",
    node := some statement }

/-- Translation of `check_dangerous_query`: on a parser exception, one
synthetic non-dangerous result carrying the error text; on an empty parse
list, one "No valid SQL statement found" result; otherwise the
concatenation over the statements (skipping `None` entries) of the
statement's detections, replaced by the safe placeholder when empty. -/
def check_dangerous_query : ParseOutcome → List Detection
  | .error msg =>
      [{ is_dangerous := false,
         statement_type := none,
         has_where := some false,
         message := "Error parsing SQL: " ++ msg,
         node := none }]
  | .ok stmts =>
      if stmts = [] then
        [{ is_dangerous := false,
           statement_type := none,
           has_where := some false,
           message := "No valid SQL statement found",
           node := none }]
      else
        stmts.flatMap fun s =>
          match s with
          | none => []
          | some statement =>
              let statement_results := check_ast_for_dangerous_commands statement
              if statement_results = [] then [safePlaceholder statement]
              else statement_results

/-- The result-scanning loop of `validate_sql_safety`: stop at the first
dangerous result, raising (`Except.error` with its message) or returning
`false` according to `raise_on_danger`. -/
def validateLoop : List Detection → Bool → Except String Bool
  | [], _ => Except.ok true
  | r :: rest, raise_on_danger =>
      if r.is_dangerous then
        if raise_on_danger then Except.error r.message else Except.ok false
      else validateLoop rest raise_on_danger

/-- Translation of `validate_sql_safety`; `Except.error m` models raising
`DangerousQueryError(m)`. -/
def validate_sql_safety (p : ParseOutcome) (raise_on_danger : Bool) :
    Except String Bool :=
  validateLoop (check_dangerous_query p) raise_on_danger

/-- Aggregated per-statement result of the WHERE-clause family. -/
structure WhereClauseResult where
  statement_num : Nat
  results : List Detection
  is_safe : Bool
  dangerous_count : Nat
  statement_type : Option String
  deriving DecidableEq, Repr

/-- Translation of `WhereClauseResult.__init__`: the derived fields. -/
def WhereClauseResult.make (statement_num : Nat) (results : List Detection) :
    WhereClauseResult :=
  { statement_num := statement_num,
    results := results,
    is_safe := results.all fun r => !r.is_dangerous,
    dangerous_count := results.countP fun r => r.is_dangerous,
    statement_type :=
      match results with
      | [] => some "UNKNOWN"
      | r :: _ => r.statement_type }

/-- Translation of `context_where.run_task`: detections of the statement
tree, replaced by the safe placeholder when there are none, aggregated. -/
def run_task (parsed_stmt : SNode) (statement_num : Nat) : WhereClauseResult :=
  let results := check_ast_for_dangerous_commands parsed_stmt
  let results := if results = [] then [safePlaceholder parsed_stmt] else results
  WhereClauseResult.make statement_num results

end ContextWhere

namespace CheckDrop

/-- Case 1 of `check_ast_for_drop_operations`: a `Drop` node whose `kind`
arg is an expression whose name uppercases to `TABLE`.  A `kind` arg that
is absent or `None` is falsy and never matches. -/
def dropTableCheck (n : SNode) : List Detection :=
  if n.kind = Kind.drop then
    match n.args.get "kind" with
    | some (Arg.node obj_type) =>
        if pyUpper obj_type.name = "TABLE" then
          [{ is_dangerous := true,
             statement_type := some "DROP TABLE",
             has_where := none,
             message := "DROP TABLE detected — this may cause irreversible data loss.",
             node := some n }]
        else []
    | _ => []
  else []

/-- The detection dict appended for one matching `DROP COLUMN` action; it
references the enclosing `Alter` node, not the action. -/
def alterDropDetection (alterNode : SNode) : Detection :=
  { is_dangerous := true,
    statement_type := some "ALTER TABLE DROP COLUMN",
    has_where := none,
    message := "ALTER TABLE DROP COLUMN detected — this may cause data loss or migration inconsistency.",
    node := some alterNode }

/-- The `for action in actions` loop of case 2: a detection per action that
is a `Drop` expression whose `kind` arg names `COLUMN` (case-insensitively);
all other elements are skipped. -/
def dropColumnActions (alterNode : SNode) : Items → List Detection
  | .nil => []
  | .cons a rest =>
      (match a with
       | Arg.node action =>
           if action.kind = Kind.drop then
             match action.args.get "kind" with
             | some (Arg.node obj_type) =>
                 if pyUpper obj_type.name = "COLUMN" then
                   [alterDropDetection alterNode]
                 else []
             | _ => []
           else []
       | _ => []) ++ dropColumnActions alterNode rest

/-- Case 2 of `check_ast_for_drop_operations`: an `Alter` node's `actions`
list is scanned for `DROP COLUMN` actions.  An absent, `None`, or empty
`actions` value is falsy and contributes nothing, as does a non-list value
(over which the Python loop would find no expression elements that are
`Drop` nodes in the documented tree shape). -/
def alterDropColumnCheck (n : SNode) : List Detection :=
  if n.kind = Kind.alter then
    match n.args.get "actions" with
    | some (Arg.list acts) => dropColumnActions n acts
    | _ => []
  else []

/-- The block of `check_ast_for_drop_operations` that examines the current
node: both cases in order. -/
def dropNodeCheck (n : SNode) : List Detection :=
  dropTableCheck n ++ alterDropColumnCheck n

mutual
/-- Translation of `check_ast_for_drop_operations`: both node-level cases,
then the same child recursion as the WHERE-clause detector. -/
def check_ast_for_drop_operations : SNode → List Detection
  | .mk k nm a =>
      dropNodeCheck (SNode.mk k nm a) ++ dropWalkArgs a
def dropWalkArgs : Args → List Detection
  | .nil => []
  | .cons _ v rest => dropWalkArg v ++ dropWalkArgs rest
def dropWalkArg : Arg → List Detection
  | .null => []
  | .scalar => []
  | .node n => check_ast_for_drop_operations n
  | .list xs => dropWalkItems xs
def dropWalkItems : Items → List Detection
  | .nil => []
  | .cons v rest => dropWalkItem v ++ dropWalkItems rest
def dropWalkItem : Arg → List Detection
  | .node n => check_ast_for_drop_operations n
  | _ => []
end

/-- Aggregated per-statement result of the drop-operation family. -/
structure DropOperationResult where
  statement_num : Nat
  results : List Detection
  is_safe : Bool
  dangerous_count : Nat
  statement_type : Option String
  deriving DecidableEq, Repr

/-- Translation of `DropOperationResult.__init__`: the derived fields. -/
def DropOperationResult.make (statement_num : Nat) (results : List Detection) :
    DropOperationResult :=
  { statement_num := statement_num,
    results := results,
    is_safe := results.all fun r => !r.is_dangerous,
    dangerous_count := results.countP fun r => r.is_dangerous,
    statement_type :=
      match results with
      | [] => some "UNKNOWN"
      | r :: _ => r.statement_type }

/-- Translation of `check_drop.run_task`: detections of the statement tree,
replaced by the module's own safe placeholder when there are none. -/
def run_task (parsed_stmt : SNode) (statement_num : Nat) : DropOperationResult :=
  let results := check_ast_for_drop_operations parsed_stmt
  let results :=
    if results = [] then
      [{ is_dangerous := false,
         statement_type := some "OTHER",
         has_where := none,
         message := "No destructive DROP operations detected.",
         node := some parsed_stmt }]
    else results
  DropOperationResult.make statement_num results

end CheckDrop

mutual
/-- Pre-order list of all nodes of a tree, visiting exactly the nodes the
detectors' shared child recursion visits. -/
def nodesOf : SNode → List SNode
  | .mk k nm a => SNode.mk k nm a :: nodesArgs a
def nodesArgs : Args → List SNode
  | .nil => []
  | .cons _ v rest => nodesArg v ++ nodesArgs rest
def nodesArg : Arg → List SNode
  | .null => []
  | .scalar => []
  | .node n => nodesOf n
  | .list xs => nodesItems xs
def nodesItems : Items → List SNode
  | .nil => []
  | .cons v rest => nodesItem v ++ nodesItems rest
def nodesItem : Arg → List SNode
  | .node n => nodesOf n
  | _ => []
end

namespace Engine

/-- The per-statement loop of `engine.analyse_file`: 1-indexed enumeration
running the WHERE-clause task on each statement, accumulating all results
and the positions whose result is not safe. -/
def analyseLoop : Nat → List SNode → List ContextWhere.WhereClauseResult × List Nat
  | _, [] => ([], [])
  | i, stmt :: rest =>
      let result_where := ContextWhere.run_task stmt i
      let acc := analyseLoop (i + 1) rest
      (result_where :: acc.1,
       (if result_where.is_safe then ([] : List Nat) else [i]) ++ acc.2)

/-- The `all_results` accumulator of `analyse_file`. -/
def all_results (stmts : List SNode) : List ContextWhere.WhereClauseResult :=
  (analyseLoop 1 stmts).1

/-- The `dangerous_statements` accumulator of `analyse_file`: the 1-indexed
positions whose WHERE-family result is not safe, in source order. -/
def dangerous_positions (stmts : List SNode) : List Nat :=
  (analyseLoop 1 stmts).2

/-- The safe-statement count `analyse_file` reports. -/
def safe_count (stmts : List SNode) : Nat :=
  (all_results stmts).countP fun r => r.is_safe

/-- Translation of `engine.analyse_file` restricted to its returned value:
the pair (number of dangerous statements, total number of statements), with
the early return on an empty parse list. -/
def analyse_file (stmts : List SNode) : Nat × Nat :=
  if stmts = [] then (0, 0)
  else ((dangerous_positions stmts).length, stmts.length)

end Engine

/-! Helper lemmas shared by the claim theorems. -/

mutual
/-- The WHERE-clause detector is the concatenation, in pre-order, of the
node-level check over all nodes of the tree. -/
theorem check_where_eq_flatMap (n : SNode) :
    ContextWhere.check_ast_for_dangerous_commands n
      = (nodesOf n).flatMap ContextWhere.whereNodeCheck := by
  cases n with
  | mk k nm a =>
      simp [ContextWhere.check_ast_for_dangerous_commands, nodesOf,
        check_where_args_eq_flatMap a]
theorem check_where_args_eq_flatMap (a : Args) :
    ContextWhere.whereWalkArgs a = (nodesArgs a).flatMap ContextWhere.whereNodeCheck := by
  cases a with
  | nil => simp [ContextWhere.whereWalkArgs, nodesArgs]
  | cons f v rest =>
      simp [ContextWhere.whereWalkArgs, nodesArgs,
        check_where_arg_eq_flatMap v, check_where_args_eq_flatMap rest]
theorem check_where_arg_eq_flatMap (v : Arg) :
    ContextWhere.whereWalkArg v = (nodesArg v).flatMap ContextWhere.whereNodeCheck := by
  cases v with
  | null => simp [ContextWhere.whereWalkArg, nodesArg]
  | scalar => simp [ContextWhere.whereWalkArg, nodesArg]
  | node n => simp [ContextWhere.whereWalkArg, nodesArg, check_where_eq_flatMap n]
  | list xs => simp [ContextWhere.whereWalkArg, nodesArg, check_where_items_eq_flatMap xs]
theorem check_where_items_eq_flatMap (xs : Items) :
    ContextWhere.whereWalkItems xs = (nodesItems xs).flatMap ContextWhere.whereNodeCheck := by
  cases xs with
  | nil => simp [ContextWhere.whereWalkItems, nodesItems]
  | cons v rest =>
      simp [ContextWhere.whereWalkItems, nodesItems,
        check_where_item_eq_flatMap v, check_where_items_eq_flatMap rest]
theorem check_where_item_eq_flatMap (v : Arg) :
    ContextWhere.whereWalkItem v = (nodesItem v).flatMap ContextWhere.whereNodeCheck := by
  cases v with
  | null => simp [ContextWhere.whereWalkItem, nodesItem]
  | scalar => simp [ContextWhere.whereWalkItem, nodesItem]
  | node n => simp [ContextWhere.whereWalkItem, nodesItem, check_where_eq_flatMap n]
  | list xs => simp [ContextWhere.whereWalkItem, nodesItem]
end

mutual
/-- The drop detector is the concatenation, in pre-order, of its node-level
check over all nodes of the tree. -/
theorem check_drop_eq_flatMap (n : SNode) :
    CheckDrop.check_ast_for_drop_operations n
      = (nodesOf n).flatMap CheckDrop.dropNodeCheck := by
  cases n with
  | mk k nm a =>
      simp [CheckDrop.check_ast_for_drop_operations, nodesOf,
        check_drop_args_eq_flatMap a]
theorem check_drop_args_eq_flatMap (a : Args) :
    CheckDrop.dropWalkArgs a = (nodesArgs a).flatMap CheckDrop.dropNodeCheck := by
  cases a with
  | nil => simp [CheckDrop.dropWalkArgs, nodesArgs]
  | cons f v rest =>
      simp [CheckDrop.dropWalkArgs, nodesArgs,
        check_drop_arg_eq_flatMap v, check_drop_args_eq_flatMap rest]
theorem check_drop_arg_eq_flatMap (v : Arg) :
    CheckDrop.dropWalkArg v = (nodesArg v).flatMap CheckDrop.dropNodeCheck := by
  cases v with
  | null => simp [CheckDrop.dropWalkArg, nodesArg]
  | scalar => simp [CheckDrop.dropWalkArg, nodesArg]
  | node n => simp [CheckDrop.dropWalkArg, nodesArg, check_drop_eq_flatMap n]
  | list xs => simp [CheckDrop.dropWalkArg, nodesArg, check_drop_items_eq_flatMap xs]
theorem check_drop_items_eq_flatMap (xs : Items) :
    CheckDrop.dropWalkItems xs = (nodesItems xs).flatMap CheckDrop.dropNodeCheck := by
  cases xs with
  | nil => simp [CheckDrop.dropWalkItems, nodesItems]
  | cons v rest =>
      simp [CheckDrop.dropWalkItems, nodesItems,
        check_drop_item_eq_flatMap v, check_drop_items_eq_flatMap rest]
theorem check_drop_item_eq_flatMap (v : Arg) :
    CheckDrop.dropWalkItem v = (nodesItem v).flatMap CheckDrop.dropNodeCheck := by
  cases v with
  | null => simp [CheckDrop.dropWalkItem, nodesItem]
  | scalar => simp [CheckDrop.dropWalkItem, nodesItem]
  | node n => simp [CheckDrop.dropWalkItem, nodesItem, check_drop_eq_flatMap n]
  | list xs => simp [CheckDrop.dropWalkItem, nodesItem]
end

/-- Boolean test for an action-list element the drop detector's case 2
matches: an expression node of class `Drop` whose `kind` arg names
`COLUMN` case-insensitively. -/
def isColumnDropAction : Arg → Bool
  | Arg.node action =>
      if action.kind = Kind.drop then
        match action.args.get "kind" with
        | some (Arg.node obj_type) => pyUpper obj_type.name == "COLUMN"
        | _ => false
      else false
  | _ => false

/-- Number of matching `DROP COLUMN` elements of an action list. -/
def countColumnDrops : Items → Nat
  | .nil => 0
  | .cons a rest => (if isColumnDropAction a then 1 else 0) + countColumnDrops rest

/-- Case 2 of the drop detector appends one identical detection per
matching action: its output is a replicate of the per-alter detection. -/
theorem dropColumnActions_eq_replicate (n : SNode) :
    ∀ acts : Items,
      CheckDrop.dropColumnActions n acts
        = List.replicate (countColumnDrops acts) (CheckDrop.alterDropDetection n)
  | .nil => by simp [CheckDrop.dropColumnActions, countColumnDrops]
  | .cons a rest => by
      have ih := dropColumnActions_eq_replicate n rest
      cases a with
      | null =>
          simp [CheckDrop.dropColumnActions, countColumnDrops, isColumnDropAction, ih]
      | scalar =>
          simp [CheckDrop.dropColumnActions, countColumnDrops, isColumnDropAction, ih]
      | list xs =>
          simp [CheckDrop.dropColumnActions, countColumnDrops, isColumnDropAction, ih]
      | node action =>
          by_cases hk : action.kind = Kind.drop
          · cases hg : action.args.get "kind" with
            | none =>
                simp [CheckDrop.dropColumnActions, countColumnDrops,
                  isColumnDropAction, hk, hg, ih]
            | some v =>
                cases v with
                | null =>
                    simp [CheckDrop.dropColumnActions, countColumnDrops,
                      isColumnDropAction, hk, hg, ih]
                | scalar =>
                    simp [CheckDrop.dropColumnActions, countColumnDrops,
                      isColumnDropAction, hk, hg, ih]
                | list xs =>
                    simp [CheckDrop.dropColumnActions, countColumnDrops,
                      isColumnDropAction, hk, hg, ih]
                | node obj_type =>
                    by_cases hc : pyUpper obj_type.name = "COLUMN"
                    · simp [CheckDrop.dropColumnActions, countColumnDrops,
                        isColumnDropAction, hk, hg, hc, ih, Nat.one_add,
                        List.replicate_succ]
                    · simp [CheckDrop.dropColumnActions, countColumnDrops,
                        isColumnDropAction, hk, hg, hc, ih]
          · simp [CheckDrop.dropColumnActions, countColumnDrops,
              isColumnDropAction, hk, ih]

/-- The scanning loop of `validate_sql_safety` returns `ok true` exactly
when no result is dangerous, and otherwise raises or returns `false` at
the first dangerous result according to `raise_on_danger`. -/
theorem validateLoop_spec (rs : List Detection) (rod : Bool) :
    (ContextWhere.validateLoop rs rod = Except.ok true
        ↔ rs.find? (fun r => r.is_dangerous) = none)
    ∧ ∀ d, rs.find? (fun r => r.is_dangerous) = some d →
        ContextWhere.validateLoop rs rod
          = if rod then Except.error d.message else Except.ok false := by
  induction rs with
  | nil => simp [ContextWhere.validateLoop]
  | cons r rest ih =>
      by_cases hr : r.is_dangerous
      · refine ⟨?_, ?_⟩
        · simp [ContextWhere.validateLoop, hr]
          cases rod <;> simp
        · intro d hd
          simp [List.find?, hr] at hd
          subst hd
          simp [ContextWhere.validateLoop, hr]
      · have hr' : r.is_dangerous = false := by simpa using hr
        refine ⟨?_, ?_⟩
        · rw [ContextWhere.validateLoop]
          simp [hr', ih.1]
        · intro d hd
          simp [List.find?, hr'] at hd
          rw [ContextWhere.validateLoop]
          simp [hr']
          exact ih.2 d hd

/-- Every position the engine loop reports is at least the starting
index. -/
theorem analyseLoop_lower (stmts : List SNode) :
    ∀ i : Nat, ∀ j ∈ (Engine.analyseLoop i stmts).2, i ≤ j := by
  induction stmts with
  | nil => intro i j hj; simp [Engine.analyseLoop] at hj
  | cons stmt rest ih =>
      intro i j hj
      rw [Engine.analyseLoop] at hj
      by_cases hs : (ContextWhere.run_task stmt i).is_safe
      · simp [hs] at hj
        exact Nat.le_of_succ_le (ih (i + 1) j hj)
      · simp [hs] at hj
        rcases hj with hj | hj
        · omega
        · exact Nat.le_of_succ_le (ih (i + 1) j hj)

/-- The positions the engine loop reports are strictly increasing. -/
theorem analyseLoop_chain (stmts : List SNode) :
    ∀ i : Nat, List.Chain' (· < ·) (Engine.analyseLoop i stmts).2 := by
  induction stmts with
  | nil => intro i; simp [Engine.analyseLoop]
  | cons stmt rest ih =>
      intro i
      rw [Engine.analyseLoop]
      by_cases hs : (ContextWhere.run_task stmt i).is_safe
      · simpa [hs] using ih (i + 1)
      · simp [hs]
        refine List.chain'_cons'.mpr ⟨?_, ih (i + 1)⟩
        intro b hb
        have hb' := analyseLoop_lower rest (i + 1) b (List.mem_of_mem_head? hb)
        omega

/-- Membership in the engine loop's dangerous-position list: exactly the
indices, counted from the starting index, of statements whose WHERE-family
result is unsafe. -/
theorem analyseLoop_mem (stmts : List SNode) :
    ∀ i j : Nat,
      (j ∈ (Engine.analyseLoop i stmts).2
        ↔ ∃ s, stmts.get? (j - i) = some s ∧ i ≤ j
            ∧ (ContextWhere.run_task s j).is_safe = false) := by
  induction stmts with
  | nil => intro i j; simp [Engine.analyseLoop]
  | cons stmt rest ih =>
      intro i j
      rw [Engine.analyseLoop]
      by_cases hij : j = i
      · subst hij
        by_cases hs : (ContextWhere.run_task stmt j).is_safe
        · simp only [hs]
          constructor
          · intro hj
            simp at hj
            have := analyseLoop_lower rest (j + 1) j hj
            omega
          · rintro ⟨s, hget, hle, hunsafe⟩
            simp at hget
            subst hget
            rw [hs] at hunsafe
            cases hunsafe
        · simp only [hs]
          constructor
          · intro _
            exact ⟨stmt, by simp, Nat.le_refl j, by simpa using hs⟩
          · intro _
            simp
      · by_cases hlt : j < i
        · constructor
          · intro hj
            by_cases hs : (ContextWhere.run_task stmt i).is_safe
            · simp [hs] at hj
              have := analyseLoop_lower rest (i + 1) j hj
              omega
            · simp [hs] at hj
              rcases hj with hj | hj
              · omega
              · have := analyseLoop_lower rest (i + 1) j hj
                omega
          · rintro ⟨s, _, hle, _⟩
            omega
        · have hgt : i < j := by omega
          have hsub : j - i = (j - (i + 1)) + 1 := by omega
          have hrest :
              (stmt :: rest).get? (j - i) = rest.get? (j - (i + 1)) := by
            rw [hsub]; rfl
          constructor
          · intro hj
            have hj' : j ∈ (Engine.analyseLoop (i + 1) rest).2 := by
              by_cases hs : (ContextWhere.run_task stmt i).is_safe
              · simpa [hs] using hj
              · simp [hs] at hj
                rcases hj with hj | hj
                · omega
                · exact hj
            rcases (ih (i + 1) j).mp hj' with ⟨s, hget, hle, hunsafe⟩
            exact ⟨s, by rw [hrest]; exact hget, by omega, hunsafe⟩
          · rintro ⟨s, hget, hle, hunsafe⟩
            rw [hrest] at hget
            have hj' : j ∈ (Engine.analyseLoop (i + 1) rest).2 :=
              (ih (i + 1) j).mpr ⟨s, hget, by omega, hunsafe⟩
            by_cases hs : (ContextWhere.run_task stmt i).is_safe
            · simpa [hs] using hj'
            · simp [hs]
              exact Or.inr hj'

/-- The WHERE flag computed by `has_where_clause` holds exactly when the
node's `where` arg is present and not `None`. -/
theorem has_where_clause_iff (n : SNode) :
    ContextWhere.has_where_clause n = true
      ↔ ∃ v, n.args.get "where" = some v ∧ v ≠ Arg.null := by
  unfold ContextWhere.has_where_clause
  cases hg : n.args.get "where" with
  | none => simp
  | some v =>
      cases v with
      | null => simp
      | scalar => simp
      | node m => simp
      | list xs => simp

/-! Concrete syntax trees used by the witnesses and counterexamples,
shaped like the trees sqlglot produces for the spec's scenario SQL. -/

/-- Generic leaf expression of an unrecognized class. -/
def leafNode (cls nm : String) : SNode := SNode.mk (Kind.other cls) nm Args.nil

/-- Identifier-style node carrying a name, such as sqlglot's `Var`. -/
def varNode (nm : String) : SNode := leafNode "Var" nm

/-- Table reference node. -/
def tableNode (nm : String) : SNode := leafNode "Table" nm

/-- WHERE-clause subtree (condition elided to a leaf). -/
def whereNode : SNode :=
  SNode.mk (Kind.other "Where") ""
    (Args.cons "this" (Arg.node (leafNode "EQ" "")) Args.nil)

/-- Tree of `UPDATE t SET x=1 WHERE id=1`. -/
def updWithWhere : SNode :=
  SNode.mk Kind.update ""
    (Args.cons "this" (Arg.node (tableNode "t"))
      (Args.cons "expressions"
        (Arg.list (Items.cons (Arg.node (leafNode "EQ" "")) Items.nil))
        (Args.cons "where" (Arg.node whereNode) Args.nil)))

/-- Tree of `UPDATE users SET status='inactive'` (no WHERE clause). -/
def updNoWhere : SNode :=
  SNode.mk Kind.update ""
    (Args.cons "this" (Arg.node (tableNode "users"))
      (Args.cons "expressions"
        (Arg.list (Items.cons (Arg.node (leafNode "EQ" "")) Items.nil)) Args.nil))

/-- Tree of `DELETE FROM t` (no WHERE clause). -/
def delNoWhere : SNode :=
  SNode.mk Kind.delete ""
    (Args.cons "this" (Arg.node (tableNode "t")) Args.nil)

/-- Tree of `SELECT * FROM t`. -/
def selectStar : SNode :=
  SNode.mk Kind.select ""
    (Args.cons "expressions"
      (Arg.list (Items.cons (Arg.node (leafNode "Star" "*")) Items.nil))
      (Args.cons "from" (Arg.node (tableNode "t")) Args.nil))

/-- The spec's three-statement scenario script, parsed. -/
def scenarioStatements : List SNode := [updWithWhere, delNoWhere, selectStar]

/-- Tree of `DROP TABLE accounts` with a lower-case object-kind attribute,
exercising the case-insensitive comparison. -/
def dropTableStmt : SNode :=
  SNode.mk Kind.drop ""
    (Args.cons "this" (Arg.node (tableNode "accounts"))
      (Args.cons "kind" (Arg.node (varNode "table")) Args.nil))

/-- Tree of `DROP VIEW v`: a drop whose object kind is not TABLE. -/
def dropViewStmt : SNode :=
  SNode.mk Kind.drop ""
    (Args.cons "this" (Arg.node (tableNode "v"))
      (Args.cons "kind" (Arg.node (varNode "VIEW")) Args.nil))

/-- One `DROP COLUMN c` action node as it appears inside an alter's action
list. -/
def columnDropAction (c : String) : SNode :=
  SNode.mk Kind.drop ""
    (Args.cons "this" (Arg.node (leafNode "Column" c))
      (Args.cons "kind" (Arg.node (varNode "COLUMN")) Args.nil))

/-- Tree of `ALTER TABLE t DROP COLUMN a, DROP COLUMN b`. -/
def alterTwoDrops : SNode :=
  SNode.mk Kind.alter ""
    (Args.cons "this" (Arg.node (tableNode "t"))
      (Args.cons "actions"
        (Arg.list (Items.cons (Arg.node (columnDropAction "a"))
          (Items.cons (Arg.node (columnDropAction "b")) Items.nil))) Args.nil))

/-- An action-list element that is not itself a `Drop` node but contains a
`DROP COLUMN` node one level deeper. -/
def wrappedColumnDrop : SNode :=
  SNode.mk (Kind.other "Tuple") ""
    (Args.cons "expressions" (Arg.node (columnDropAction "a")) Args.nil)

/-- Alter statement whose column drop is nested one level below the action
list elements. -/
def alterNestedDrop : SNode :=
  SNode.mk Kind.alter ""
    (Args.cons "this" (Arg.node (tableNode "t"))
      (Args.cons "actions"
        (Arg.list (Items.cons (Arg.node wrappedColumnDrop) Items.nil)) Args.nil))

/-- C1: for every syntax-tree node of kind UPDATE or DELETE the WHERE-clause
detector emits exactly one DetectionResult at that node, with `has_where`
true exactly when the node's `where` field is present and non-null and
`is_dangerous` the negation of `has_where`; the whole detector is the
pre-order concatenation of this node-level check over all tree nodes, so
the matched node contributes exactly that one result. -/
theorem c1_where_detector_mutation_node (n : SNode)
    (h : n.kind = Kind.update ∨ n.kind = Kind.delete) :
    (ContextWhere.whereNodeCheck n).length = 1
    ∧ (∀ d ∈ ContextWhere.whereNodeCheck n,
        d.has_where = some (ContextWhere.has_where_clause n)
        ∧ (d.has_where = some true ↔ ∃ v, n.args.get "where" = some v ∧ v ≠ Arg.null)
        ∧ d.is_dangerous = !(ContextWhere.has_where_clause n)
        ∧ d.node = some n)
    ∧ (∀ t : SNode,
        ContextWhere.check_ast_for_dangerous_commands t
          = (nodesOf t).flatMap ContextWhere.whereNodeCheck) := by
  have hm : n.kind ∈ ContextWhere.DANGEROUS_COMMANDS := by
    rcases h with h | h <;> simp [ContextWhere.DANGEROUS_COMMANDS, h]
  refine ⟨?_, ?_, check_where_eq_flatMap⟩
  · simp [ContextWhere.whereNodeCheck, hm]
  · intro d hd
    simp [ContextWhere.whereNodeCheck, hm] at hd
    subst hd
    refine ⟨rfl, ?_, rfl, rfl⟩
    rw [Option.some.injEq]
    exact has_where_clause_iff n

/-- Witness for C1 at the tree of `UPDATE users SET status='inactive'`. -/
theorem c1_where_detector_mutation_node_witness :
    ContextWhere.has_where_clause updNoWhere = false
    ∧ (ContextWhere.whereNodeCheck updNoWhere).length = 1
    ∧ ∀ d ∈ ContextWhere.whereNodeCheck updNoWhere,
        d.is_dangerous = !(ContextWhere.has_where_clause updNoWhere) := by
  have h := c1_where_detector_mutation_node updNoWhere (Or.inl rfl)
  exact ⟨by decide, h.1, fun d hd => (h.2.1 d hd).2.2.1⟩

/-- C2: on a statement tree containing no UPDATE or DELETE node the
WHERE-clause `run_task` yields exactly one detection, the synthetic safe
placeholder, whose type is the statement-type resolver applied to the tree
root, and the aggregated result is safe. -/
theorem c2_run_task_no_mutation (t : SNode) (i : Nat)
    (h : ∀ m ∈ nodesOf t, m.kind ≠ Kind.update ∧ m.kind ≠ Kind.delete) :
    (ContextWhere.run_task t i).results = [ContextWhere.safePlaceholder t]
    ∧ (ContextWhere.run_task t i).results.length = 1
    ∧ (ContextWhere.safePlaceholder t).is_dangerous = false
    ∧ (ContextWhere.safePlaceholder t).statement_type
        = some (ContextWhere.get_statement_type t)
    ∧ (ContextWhere.run_task t i).statement_type
        = some (ContextWhere.get_statement_type t)
    ∧ (ContextWhere.run_task t i).is_safe = true := by
  have hnil : ContextWhere.check_ast_for_dangerous_commands t = [] := by
    rw [check_where_eq_flatMap, List.flatMap_eq_nil_iff]
    intro m hm
    have hk := h m hm
    simp [ContextWhere.whereNodeCheck, ContextWhere.DANGEROUS_COMMANDS, hk.1, hk.2]
  simp [ContextWhere.run_task, hnil, ContextWhere.WhereClauseResult.make,
    ContextWhere.safePlaceholder]

/-- Witness for C2 at the tree of `SELECT * FROM t`. -/
theorem c2_run_task_no_mutation_witness :
    (ContextWhere.run_task selectStar 1).results.length = 1
    ∧ (ContextWhere.run_task selectStar 1).is_safe = true
    ∧ (ContextWhere.run_task selectStar 1).statement_type = some "SELECT" := by
  have h := c2_run_task_no_mutation selectStar 1 (by decide)
  exact ⟨h.2.1, h.2.2.2.2.2, by rw [h.2.2.2.2.1]; rfl⟩

/-- C3: in both aggregation classes, built from any detection sequence,
`dangerous_count` is the number of dangerous detections and `is_safe` holds
exactly when that count is zero. -/
theorem c3_aggregate_invariant (idx : Nat) (rs : List Detection) :
    ((ContextWhere.WhereClauseResult.make idx rs).dangerous_count
        = rs.countP (fun r => r.is_dangerous)
      ∧ ((ContextWhere.WhereClauseResult.make idx rs).is_safe = true
          ↔ (ContextWhere.WhereClauseResult.make idx rs).dangerous_count = 0))
    ∧ ((CheckDrop.DropOperationResult.make idx rs).dangerous_count
        = rs.countP (fun r => r.is_dangerous)
      ∧ ((CheckDrop.DropOperationResult.make idx rs).is_safe = true
          ↔ (CheckDrop.DropOperationResult.make idx rs).dangerous_count = 0)) := by
  refine ⟨⟨rfl, ?_⟩, rfl, ?_⟩ <;>
    simp [ContextWhere.WhereClauseResult.make, CheckDrop.DropOperationResult.make,
      List.all_eq_true, List.countP_eq_zero]

/-- C4 counterexample: on an empty detection sequence both aggregation
classes set `statement_type` to `UNKNOWN`, not `OTHER` as claimed. -/
theorem c4_counterexample :
    (ContextWhere.WhereClauseResult.make 1 []).statement_type = some "UNKNOWN"
    ∧ (ContextWhere.WhereClauseResult.make 1 []).statement_type ≠ some "OTHER"
    ∧ (CheckDrop.DropOperationResult.make 1 []).statement_type = some "UNKNOWN"
    ∧ (CheckDrop.DropOperationResult.make 1 []).statement_type ≠ some "OTHER" := by
  exact ⟨rfl, by decide, rfl, by decide⟩

/-- C4 (amended): in both aggregation classes `statement_type` is the first
detection's statement type, and `UNKNOWN` when the sequence is empty. -/
theorem c4_statement_type_first_detection (idx : Nat) (rs : List Detection) :
    ((ContextWhere.WhereClauseResult.make idx rs).statement_type
        = rs.head?.elim (some "UNKNOWN") (fun r => r.statement_type))
    ∧ ((CheckDrop.DropOperationResult.make idx rs).statement_type
        = rs.head?.elim (some "UNKNOWN") (fun r => r.statement_type)) := by
  cases rs <;> exact ⟨rfl, rfl⟩

/-- C5: a DROP node whose object-kind attribute names TABLE under the
case-insensitive comparison makes the drop detector's node-level check
produce exactly one dangerous detection labelled "DROP TABLE"; a DROP node
whose object kind is not TABLE produces none; the whole detector is the
pre-order concatenation of the node-level check over all tree nodes. -/
theorem c5_drop_table_node (n : SNode) (h : n.kind = Kind.drop) :
    (∀ v : SNode, n.args.get "kind" = some (Arg.node v) →
        pyUpper v.name = "TABLE" →
        CheckDrop.dropNodeCheck n
          = [{ is_dangerous := true,
               statement_type := some "DROP TABLE",
               has_where := none,
               message := "DROP TABLE detected — this may cause irreversible data loss.",
               node := some n }])
    ∧ ((¬∃ v : SNode, n.args.get "kind" = some (Arg.node v)
            ∧ pyUpper v.name = "TABLE") →
        CheckDrop.dropNodeCheck n = [])
    ∧ (∀ t : SNode,
        CheckDrop.check_ast_for_drop_operations t
          = (nodesOf t).flatMap CheckDrop.dropNodeCheck) := by
  have halter : n.kind ≠ Kind.alter := by rw [h]; intro hc; cases hc
  have hac : CheckDrop.alterDropColumnCheck n = [] := by
    simp [CheckDrop.alterDropColumnCheck, halter]
  refine ⟨?_, ?_, check_drop_eq_flatMap⟩
  · intro v hv hup
    simp [CheckDrop.dropNodeCheck, CheckDrop.dropTableCheck, h, hv, hup, hac]
  · intro hnot
    have htc : CheckDrop.dropTableCheck n = [] := by
      cases hg : n.args.get "kind" with
      | none => simp [CheckDrop.dropTableCheck, h, hg]
      | some v =>
          cases v with
          | null => simp [CheckDrop.dropTableCheck, h, hg]
          | scalar => simp [CheckDrop.dropTableCheck, h, hg]
          | list xs => simp [CheckDrop.dropTableCheck, h, hg]
          | node m =>
              have hup : ¬ pyUpper m.name = "TABLE" := fun hc => hnot ⟨m, hg, hc⟩
              simp [CheckDrop.dropTableCheck, h, hg, hup]
    simp [CheckDrop.dropNodeCheck, htc, hac]

/-- Witness for C5 at `DROP TABLE accounts` (lower-case object kind) and at
`DROP VIEW v`. -/
theorem c5_drop_table_node_witness :
    CheckDrop.dropNodeCheck dropTableStmt
      = [{ is_dangerous := true,
           statement_type := some "DROP TABLE",
           has_where := none,
           message := "DROP TABLE detected — this may cause irreversible data loss.",
           node := some dropTableStmt }]
    ∧ CheckDrop.dropNodeCheck dropViewStmt = [] := by
  refine ⟨(c5_drop_table_node dropTableStmt rfl).1 (varNode "table") rfl (by decide), ?_⟩
  refine (c5_drop_table_node dropViewStmt rfl).2.1 ?_
  rintro ⟨v, hv, hup⟩
  have h0 : dropViewStmt.args.get "kind" = some (Arg.node (varNode "VIEW")) := rfl
  rw [h0] at hv
  injection hv with hv1
  injection hv1 with hv2
  rw [← hv2] at hup
  exact absurd hup (by decide)

/-- C6 counterexample: an ALTER node whose action list contains a DROP
COLUMN node at nesting depth two (inside a non-Drop action element)
produces no detection at all — the detector only matches direct elements of
the action list, not arbitrary nesting depths. -/
theorem c6_counterexample :
    alterNestedDrop.kind = Kind.alter
    ∧ alterNestedDrop.args.get "actions"
        = some (Arg.list (Items.cons (Arg.node wrappedColumnDrop) Items.nil))
    ∧ wrappedColumnDrop.args.get "expressions"
        = some (Arg.node (columnDropAction "a"))
    ∧ (columnDropAction "a").kind = Kind.drop
    ∧ (columnDropAction "a").args.get "kind" = some (Arg.node (varNode "COLUMN"))
    ∧ pyUpper (varNode "COLUMN").name = "COLUMN"
    ∧ columnDropAction "a" ∈ nodesOf alterNestedDrop
    ∧ CheckDrop.check_ast_for_drop_operations alterNestedDrop = [] := by
  exact ⟨rfl, rfl, rfl, rfl, rfl, by decide, by decide, by decide⟩

/-- C6 (amended): for an ALTER node, the drop detector's node-level check
produces exactly one dangerous "ALTER TABLE DROP COLUMN" detection per DROP
COLUMN node that is a direct element of the action list, each attributed to
the enclosing ALTER node. -/
theorem c6_alter_drop_column_direct (n : SNode) (acts : Items)
    (h : n.kind = Kind.alter)
    (ha : n.args.get "actions" = some (Arg.list acts)) :
    CheckDrop.dropNodeCheck n
      = List.replicate (countColumnDrops acts) (CheckDrop.alterDropDetection n)
    ∧ (CheckDrop.alterDropDetection n).is_dangerous = true
    ∧ (CheckDrop.alterDropDetection n).statement_type
        = some "ALTER TABLE DROP COLUMN"
    ∧ (CheckDrop.alterDropDetection n).node = some n := by
  have hdrop : n.kind ≠ Kind.drop := by rw [h]; intro hc; cases hc
  have htc : CheckDrop.dropTableCheck n = [] := by
    simp [CheckDrop.dropTableCheck, hdrop]
  refine ⟨?_, rfl, rfl, rfl⟩
  simp [CheckDrop.dropNodeCheck, htc, CheckDrop.alterDropColumnCheck, h, ha,
    dropColumnActions_eq_replicate]

/-- Witness for the amended C6 at `ALTER TABLE t DROP COLUMN a, DROP COLUMN b`:
two actions, two detections. -/
theorem c6_alter_drop_column_direct_witness :
    CheckDrop.dropNodeCheck alterTwoDrops
      = List.replicate 2 (CheckDrop.alterDropDetection alterTwoDrops) := by
  have h := (c6_alter_drop_column_direct alterTwoDrops
    (Items.cons (Arg.node (columnDropAction "a"))
      (Items.cons (Arg.node (columnDropAction "b")) Items.nil)) rfl rfl).1
  exact h.trans (by decide)

/-- C7: when the parser raises, `check_dangerous_query` returns exactly one
synthetic result, not dangerous, with null statement type, whose message
carries the parser's error text; being a total function of the outcome, no
exception escapes. -/
theorem c7_parse_failure_single_result (msg : String) :
    ContextWhere.check_dangerous_query (ParseOutcome.error msg)
      = [{ is_dangerous := false,
           statement_type := none,
           has_where := some false,
           message := "Error parsing SQL: " ++ msg,
           node := none }]
    ∧ (ContextWhere.check_dangerous_query (ParseOutcome.error msg)).length = 1
    ∧ ∃ pre, "Error parsing SQL: " ++ msg = pre ++ msg :=
  ⟨rfl, rfl, "Error parsing SQL: ", rfl⟩

/-- C8: `validate_sql_safety` returns `true` exactly when no detection of
`check_dangerous_query` is dangerous; when a first dangerous detection
exists it raises a `DangerousQueryError` carrying that detection's message
if `raise_on_danger` is set and returns `false` otherwise. -/
theorem c8_validate_sql_safety_spec (p : ParseOutcome) (rod : Bool) :
    (ContextWhere.validate_sql_safety p rod = Except.ok true
      ↔ ∀ d ∈ ContextWhere.check_dangerous_query p, d.is_dangerous = false)
    ∧ ∀ d, (ContextWhere.check_dangerous_query p).find? (fun r => r.is_dangerous)
          = some d →
        ContextWhere.validate_sql_safety p rod
          = if rod then Except.error d.message else Except.ok false := by
  have h := validateLoop_spec (ContextWhere.check_dangerous_query p) rod
  refine ⟨?_, h.2⟩
  rw [ContextWhere.validate_sql_safety, h.1, List.find?_eq_none]
  simp

/-- Witness for C8 at `DELETE FROM t` with `raise_on_danger` set. -/
theorem c8_validate_sql_safety_spec_witness :
    ContextWhere.validate_sql_safety (ParseOutcome.ok [some delNoWhere]) true
      = Except.error "Dangerous DELETE statement without WHERE clause detected!" := by
  have h := (c8_validate_sql_safety_spec (ParseOutcome.ok [some delNoWhere]) true).2
    { is_dangerous := true,
      statement_type := some "DELETE",
      has_where := some false,
      message := "Dangerous DELETE statement without WHERE clause detected!",
      node := some delNoWhere } (by decide)
  simpa using h

/-- C9: the batch orchestrator reports as dangerous exactly the 1-indexed
source positions whose WHERE-family aggregated result is unsafe, in
ascending order, and returns the pair (dangerous count, total count); on
the spec's three-statement scenario the dangerous positions are [2], the
totals (1, 3), and the safe count 2. -/
theorem c9_engine_positions_and_totals :
    (∀ (stmts : List SNode) (j : Nat),
        j ∈ Engine.dangerous_positions stmts
          ↔ ∃ s, stmts.get? (j - 1) = some s ∧ 1 ≤ j
              ∧ (ContextWhere.run_task s j).is_safe = false)
    ∧ (∀ stmts : List SNode, List.Chain' (· < ·) (Engine.dangerous_positions stmts))
    ∧ (∀ stmts : List SNode,
        Engine.analyse_file stmts
          = ((Engine.dangerous_positions stmts).length, stmts.length))
    ∧ Engine.dangerous_positions scenarioStatements = [2]
    ∧ Engine.analyse_file scenarioStatements = (1, 3)
    ∧ Engine.safe_count scenarioStatements = 2 := by
  refine ⟨?_, ?_, ?_, by decide, by decide, by decide⟩
  · intro stmts j
    exact analyseLoop_mem stmts 1 j
  · intro stmts
    exact analyseLoop_chain stmts 1
  · intro stmts
    by_cases hs : stmts = []
    · subst hs; rfl
    · simp [Engine.analyse_file, hs]

/-- C10: an ALTER node yields exactly one detection per direct DROP COLUMN
action, and no duplicate arises from the child traversal revisiting those
action nodes: a stand-alone DROP node whose object kind is COLUMN
contributes nothing at the node itself, so its visit only descends into its
children. -/
theorem c10_column_drop_counted_once (n m : SNode) (acts : Items) (v : SNode)
    (hn : n.kind = Kind.alter)
    (ha : n.args.get "actions" = some (Arg.list acts))
    (hm : m.kind = Kind.drop)
    (hv : m.args.get "kind" = some (Arg.node v))
    (hc : pyUpper v.name = "COLUMN") :
    CheckDrop.dropNodeCheck n
      = List.replicate (countColumnDrops acts) (CheckDrop.alterDropDetection n)
    ∧ CheckDrop.dropNodeCheck m = []
    ∧ CheckDrop.check_ast_for_drop_operations m = CheckDrop.dropWalkArgs m.args := by
  have hdropn : n.kind ≠ Kind.drop := by rw [hn]; intro hx; cases hx
  have haltm : m.kind ≠ Kind.alter := by rw [hm]; intro hx; cases hx
  have hTab : ¬ pyUpper v.name = "TABLE" := by rw [hc]; decide
  have htcm : CheckDrop.dropTableCheck m = [] := by
    simp [CheckDrop.dropTableCheck, hm, hv, hTab]
  have hacm : CheckDrop.alterDropColumnCheck m = [] := by
    simp [CheckDrop.alterDropColumnCheck, haltm]
  have hnodem : CheckDrop.dropNodeCheck m = [] := by
    simp [CheckDrop.dropNodeCheck, htcm, hacm]
  refine ⟨?_, hnodem, ?_⟩
  · have htcn : CheckDrop.dropTableCheck n = [] := by
      simp [CheckDrop.dropTableCheck, hdropn]
    simp [CheckDrop.dropNodeCheck, htcn, CheckDrop.alterDropColumnCheck, hn, ha,
      dropColumnActions_eq_replicate]
  · cases m with
    | mk k nm a =>
        rw [CheckDrop.check_ast_for_drop_operations, hnodem]
        rfl

/-- Witness for C10 at the two-column alter statement and the stand-alone
visit of its first action node. -/
theorem c10_column_drop_counted_once_witness :
    CheckDrop.dropNodeCheck alterTwoDrops
        = CheckDrop.alterDropDetection alterTwoDrops
            :: [CheckDrop.alterDropDetection alterTwoDrops]
    ∧ CheckDrop.dropNodeCheck (columnDropAction "a") = [] := by
  have h := c10_column_drop_counted_once alterTwoDrops (columnDropAction "a")
    (Items.cons (Arg.node (columnDropAction "a"))
      (Items.cons (Arg.node (columnDropAction "b")) Items.nil))
    (varNode "COLUMN") rfl rfl rfl rfl (by decide)
  exact ⟨h.1.trans (by decide), h.2.1⟩
